import Mathlib

/-!
Shallow embedding of the game-session controller of the lichess bot
(`src/main.py`, class `AdvancedLichessBot`), and proofs of the specified
properties of its turn tracking, policy decisions and event-loop behaviour.

Modelling conventions:
* The move field of an incremental-state event is a space-separated string
  in the source; it is modelled as the list of its tokens (`List String`),
  which is what `moves.split()` produces.
* Python floats drawn by `random.random()` and the configured probabilities
  are modelled as rationals; each call to `random.random()` is modelled by an
  explicit argument `r` with `0 ≤ r < 1` where the bound matters.
* Calls to the external game service and to the engine may raise; each such
  call site takes an explicit outcome from a per-event environment
  (`StepEnv`).  A call that is made is recorded in an effect trace
  (`Effect`), whether or not it succeeds.
* `time.sleep`, `random.random()` and the board reconstruction loop are also
  recorded in the effect trace, so that "takes no action" claims are
  expressible as an empty trace.
-/

/-- The two color assignments (`'white'` / `'black'` strings in the source). -/
inductive Color where
  | white
  | black
deriving DecidableEq, Repr

/-- The `self.settings` dictionary built in `__init__` (lines 22–28). -/
structure Settings where
  draw_accept_chance : ℚ
  takeback_accept_chance : ℚ
  resign_chance : ℚ
  min_moves_for_draw : ℕ
  move_delay : ℚ
deriving DecidableEq, Repr

/-- The concrete values assigned in `__init__`: 0.3, 0.2, 0.1, 10, 1.0. -/
def defaultSettings : Settings :=
  { draw_accept_chance := mkRat 3 10
    takeback_accept_chance := mkRat 1 5
    resign_chance := mkRat 1 10
    min_moves_for_draw := 10
    move_delay := 1 }

/-- `is_our_turn` (lines 34–41): empty sequence means white to move;
otherwise white to move iff the token count is even; returns whether that
matches `our_color`. -/
def is_our_turn (moves : List String) (our_color : Color) : Bool :=
  if moves.isEmpty then our_color == Color.white
  else (our_color == Color.white) == (moves.length % 2 == 0)

/-- Observable effects of processing one event: the sleep pacing call, a
`random.random()` draw, the board-reconstruction replay loop, an engine
search, and each outbound call to the game service. -/
inductive Effect where
  | sleep (d : ℚ)
  | randDraw (r : ℚ)
  | boardReplay (moves : List String)
  | engineSearch
  | makeMove (m : String)
  | acceptDrawCall
  | acceptTakebackCall
  | resignCall
deriving DecidableEq, Repr

/-- `should_accept_draw` (lines 43–58).  Returns the boolean result of the
source function together with the effects it performs.  `r` is the value of
the `random.random()` call, `svc` is whether the `accept_draw` service call
succeeds (`false` models the call raising, caught by the inner `except`). -/
def should_accept_draw (s : Settings) (move_count : ℕ) (r : ℚ) (svc : Bool) :
    Bool × List Effect :=
  if move_count < s.min_moves_for_draw then (false, [])
  else if r < s.draw_accept_chance then
    (svc, [Effect.randDraw r, Effect.acceptDrawCall])
  else (false, [Effect.randDraw r])

/-- `should_accept_takeback` (lines 60–71): unconditional coin flip, then a
service call whose failure is caught and turned into a `False` result. -/
def should_accept_takeback (s : Settings) (r : ℚ) (svc : Bool) :
    Bool × List Effect :=
  if r < s.takeback_accept_chance then
    (svc, [Effect.randDraw r, Effect.acceptTakebackCall])
  else (false, [Effect.randDraw r])

/-- `consider_resignation` (lines 73–84): coin flip, then a piece-count
threshold (`len(board.piece_map()) < 10`); the `resign` call is made only if
both hold, and its failure is caught and turned into a `False` result. -/
def consider_resignation (s : Settings) (piece_count : ℕ) (r : ℚ)
    (svc : Bool) : Bool × List Effect :=
  if r < s.resign_chance then
    if piece_count < 10 then
      (svc, [Effect.randDraw r, Effect.resignCall])
    else (false, [Effect.randDraw r])
  else (false, [Effect.randDraw r])

/-- Character-list matching of a pattern at the head of a text. -/
def headMatch : List Char → List Char → Bool
  | [], _ => true
  | _ :: _, [] => false
  | a :: as, b :: bs => a == b && headMatch as bs

/-- Substring containment on character lists (Python `in` on strings). -/
def containsSub (needle : List Char) : List Char → Bool
  | [] => needle.isEmpty
  | c :: rest => headMatch needle (c :: rest) || containsSub needle rest

/-- Python `needle in hay` for strings. -/
def textContains (hay needle : String) : Bool :=
  containsSub needle.data hay.data

/-- Python `any(word in text for word in words)`. -/
def containsAnyWord (text : String) (words : List String) : Bool :=
  words.any (fun w => textContains text w)

/-- The draw keyword list of line 146. -/
def draw_words : List String := ["draw", "ничья", "peace", "draw?"]

/-- The takeback keyword list of line 150. -/
def takeback_words : List String := ["takeback", "отмена", "back", "undo"]

/-- The local state of one `play_game` invocation: `our_color` (initially
`None`) and `move_count` (initially 0).  `game_id` and `our_id` are fixed
for the session and passed separately. -/
structure SessionState where
  our_color : Option Color
  move_count : ℕ
deriving DecidableEq, Repr

/-- The initial session state of `play_game` (lines 90–91). -/
def initState : SessionState := { our_color := none, move_count := 0 }

/-- The events of one game's stream (`stream_game_state`), by `type` tag. -/
inductive Event where
  | gameFull (whiteId blackId : String)
  | gameState (status : String) (moves : List String)
  | chatLine (username text : String)
  | takebackOffered
  | other (tag : String)
deriving DecidableEq, Repr

/-- The nondeterministic environment of one loop iteration: the value of the
`random.random()` draw, success of the policy service call
(accept-draw / accept-takeback / resign), the engine result (`none` models
`engine.play` raising), success of `make_move`, success of the `push_uci`
replay loop, and the piece count of the reconstructed board. -/
structure StepEnv where
  r : ℚ
  policy_svc_ok : Bool
  engine : Option String
  submit_ok : Bool
  replay_ok : Bool
  piece_count : ℕ
deriving DecidableEq, Repr

/-- Errors that propagate out of one loop iteration to `play_game`'s
`except` handler. -/
inductive BotError where
  | engineFailure
  | serviceFailure
  | malformedMove
deriving DecidableEq, Repr

/-- Outcome of processing one event: continue the loop, execute `return`
(session terminated), or raise an exception (propagates to the session
boundary).  Each carries the effects performed during the iteration. -/
inductive StepOut where
  | next (st : SessionState) (effs : List Effect)
  | halt (st : SessionState) (effs : List Effect)
  | raiseErr (e : BotError) (effs : List Effect)
deriving DecidableEq, Repr

/-- The effects performed during the iteration. -/
def StepOut.effects : StepOut → List Effect
  | .next _ effs => effs
  | .halt _ effs => effs
  | .raiseErr _ effs => effs

/-- One iteration of the `for game_event in ... stream_game_state(game_id)`
body of `play_game` (lines 94–156), as a function of the current session
state, the event, and the iteration's environment. -/
def step (our_id : String) (s : Settings) (st : SessionState) (ev : Event)
    (env : StepEnv) : StepOut :=
  match ev with
  | .gameFull whiteId _ =>
    let c : Color := if whiteId == our_id then .white else .black
    if c == .white then
      match env.engine with
      | none => .raiseErr .engineFailure [Effect.engineSearch]
      | some m =>
        if env.submit_ok then
          .next { st with our_color := some c, move_count := 1 }
            [Effect.engineSearch, Effect.makeMove m]
        else .raiseErr .serviceFailure [Effect.engineSearch, Effect.makeMove m]
    else .next { st with our_color := some c } []
  | .gameState status moves =>
    if status != "started" then .halt st []
    else
      match st.our_color with
      | some c =>
        if !moves.isEmpty && is_our_turn moves c then
          let st1 : SessionState := { st with move_count := moves.length }
          if env.replay_ok then
            let cr := consider_resignation s env.piece_count env.r
              env.policy_svc_ok
            if cr.1 then
              .halt st1 ([Effect.sleep s.move_delay,
                Effect.boardReplay moves] ++ cr.2)
            else
              match env.engine with
              | none => .raiseErr .engineFailure
                  ([Effect.sleep s.move_delay, Effect.boardReplay moves]
                    ++ cr.2 ++ [Effect.engineSearch])
              | some m =>
                if env.submit_ok then
                  .next st1 ([Effect.sleep s.move_delay,
                    Effect.boardReplay moves] ++ cr.2
                    ++ [Effect.engineSearch, Effect.makeMove m])
                else .raiseErr .serviceFailure
                  ([Effect.sleep s.move_delay, Effect.boardReplay moves]
                    ++ cr.2 ++ [Effect.engineSearch, Effect.makeMove m])
          else .raiseErr .malformedMove
            [Effect.sleep s.move_delay, Effect.boardReplay moves]
        else if !moves.isEmpty then
          .next { st with move_count := moves.length } []
        else .next st []
      | none =>
        if !moves.isEmpty then
          .next { st with move_count := moves.length } []
        else .next st []
  | .chatLine _ text =>
    let t := text.toLower
    if containsAnyWord t draw_words then
      .next st (should_accept_draw s st.move_count env.r
        env.policy_svc_ok).2
    else if containsAnyWord t takeback_words then
      .next st (should_accept_takeback s env.r env.policy_svc_ok).2
    else .next st []
  | .takebackOffered =>
    .next st (should_accept_takeback s env.r env.policy_svc_ok).2
  | .other _ => .next st []

/-- How the `try` block of `play_game` ends: the stream is exhausted, a
`return` was executed (terminal status or successful resignation), or an
exception reached the session-boundary `except` handler (which logs it;
`play_game` then returns normally in every case). -/
inductive RunOutcome where
  | streamEnded
  | returned
  | caught (e : BotError)
deriving DecidableEq, Repr

/-- The event loop of `play_game` over a finite stream: final session state,
accumulated effect trace, and how the loop ended. -/
def run_events (our_id : String) (s : Settings) (st : SessionState) :
    List (Event × StepEnv) → SessionState × List Effect × RunOutcome
  | [] => (st, [], .streamEnded)
  | (ev, env) :: rest =>
    match step our_id s st ev env with
    | .next st1 effs =>
      let tail := run_events our_id s st1 rest
      (tail.1, effs ++ tail.2.1, tail.2.2)
    | .halt st1 effs => (st1, effs, .returned)
    | .raiseErr e effs => (st, effs, .caught e)

/-- `play_game` (lines 86–159): runs the event loop from the initial state;
the surrounding `try/except` means it returns normally on every outcome,
the error being only logged. -/
def play_game (our_id : String) (s : Settings)
    (evs : List (Event × StepEnv)) : SessionState × List Effect × RunOutcome :=
  run_events our_id s initState evs

/-- The events of the account stream consumed by `run`
(`stream_incoming_events`), by `type` tag.  A `gameStart` carries the finite
stream of the corresponding game. -/
inductive InEvent where
  | challenge (id : String) (accept_ok : Bool)
  | gameStart (gameId : String) (gameEvs : List (Event × StepEnv))
  | otherIn (tag : String)
deriving DecidableEq, Repr

/-- `run` (lines 161–176): handles every incoming event in order; a
`challenge` is accepted (failure caught and logged), a `gameStart` plays the
whole game via `play_game`.  Returns the outcome of each game played,
witnessing that the outer loop reaches every event. -/
def run (our_id : String) (s : Settings) : List InEvent → List RunOutcome
  | [] => []
  | .challenge _ _ :: rest => run our_id s rest
  | .gameStart _ gevs :: rest =>
    (play_game our_id s gevs).2.2 :: run our_id s rest
  | .otherIn _ :: rest => run our_id s rest

/-- A fully successful step environment used as a concrete instantiation. -/
def env0 : StepEnv :=
  { r := 0, policy_svc_ok := true, engine := some "e2e4", submit_ok := true
    replay_ok := true, piece_count := 32 }

/-- An environment whose board replay fails (a malformed move token). -/
def envBad : StepEnv := { env0 with replay_ok := false }

/-- Whether an event is a full-state (`gameFull`) event. -/
def isGameFull : Event → Bool
  | .gameFull _ _ => true
  | _ => false

/-- The color assignment after a step, with a fallback for the raising case
(where the session dies and its state is discarded). -/
def StepOut.colorAfter (fallback : Option Color) : StepOut → Option Color
  | .next st _ => st.our_color
  | .halt st _ => st.our_color
  | .raiseErr _ _ => fallback

/-- Only a full-state event can change the color assignment. -/
theorem step_color (our_id : String) (s : Settings) (st : SessionState)
    (ev : Event) (env : StepEnv) (h : isGameFull ev = false) :
    (step our_id s st ev env).colorAfter st.our_color = st.our_color := by
  cases ev with
  | gameFull w b => simp [isGameFull] at h
  | gameState status moves =>
    simp only [step]
    split
    · rfl
    · cases hco : st.our_color with
      | none =>
        repeat' split
        all_goals first
          | contradiction
          | rfl
          | simp [StepOut.colorAfter, hco]
      | some c =>
        repeat' split
        all_goals first
          | contradiction
          | rfl
          | simp [StepOut.colorAfter, hco]
  | chatLine u text =>
    simp only [step]
    repeat' split
    all_goals rfl
  | takebackOffered => rfl
  | other t => rfl

/-- **C1.** `is_our_turn` is the pure parity check: it returns true iff
(our color is white) agrees with (the token count is even); an empty
sequence therefore means white (first mover) to move; every non-empty
even-length sequence is white's turn, every odd-length sequence black's. -/
theorem C1_is_our_turn_parity (moves : List String) (c : Color) :
    (is_our_turn moves c = ((c == Color.white) == (moves.length % 2 == 0)))
    ∧ (moves ≠ [] → moves.length % 2 = 0 →
        is_our_turn moves Color.white = true)
    ∧ (moves.length % 2 = 1 → is_our_turn moves Color.black = true) := by
  refine ⟨?_, ?_, ?_⟩
  · cases moves with
    | nil => cases c <;> simp [is_our_turn]
    | cons a as => cases c <;> simp [is_our_turn]
  · intro hne hev
    cases moves with
    | nil => simp at hne
    | cons a as =>
      simp only [List.length_cons] at hev
      simp [is_our_turn, hev]
  · intro hodd
    cases moves with
    | nil => simp at hodd
    | cons a as =>
      simp only [List.length_cons] at hodd
      simp [is_our_turn, hodd]

/-- Witness for C1 at concrete inputs. -/
theorem C1_is_our_turn_parity_witness :
    is_our_turn ["e2e4", "e7e5"] Color.white = true
    ∧ is_our_turn ["e2e4"] Color.black = true :=
  ⟨(C1_is_our_turn_parity ["e2e4", "e7e5"] Color.white).2.1 (by decide)
      (by decide),
   (C1_is_our_turn_parity ["e2e4"] Color.black).2.2 (by decide)⟩

/-- **C2.** A `gameState` event whose status is not `"started"` executes
`return`: the step halts the session with no action, and the rest of the
stream is not processed, regardless of the event's move content. -/
theorem C2_terminal_status_halts (our_id : String) (s : Settings)
    (st : SessionState) (env : StepEnv) (status : String)
    (moves : List String) (post : List (Event × StepEnv))
    (h : status ≠ "started") :
    step our_id s st (.gameState status moves) env = .halt st []
    ∧ run_events our_id s st ((.gameState status moves, env) :: post)
        = (st, [], .returned) := by
  have hstep : step our_id s st (.gameState status moves) env
      = .halt st [] := by
    simp [step, bne_iff_ne, h]
  exact ⟨hstep, by simp [run_events, hstep]⟩

/-- Witness for C2: a `"resigned"` status with pending move content and a
pending later event; the later event is not processed. -/
theorem C2_terminal_status_halts_witness :
    run_events "us" defaultSettings initState
      [(Event.gameState "resigned" ["e2e4"], env0),
       (Event.gameState "started" ["e2e4"], env0)]
      = (initState, [], RunOutcome.returned) :=
  (C2_terminal_status_halts "us" defaultSettings initState env0 "resigned"
    ["e2e4"] [(Event.gameState "started" ["e2e4"], env0)] (by decide)).2

/-- **C3.** Any exception raised while processing one game's stream ends the
loop immediately (no later event of that stream is processed) and is caught
at the session boundary: `play_game` returns normally with the error merely
recorded, so the outer listening loop `run` goes on to handle the remaining
incoming events, the next game-start included. -/
theorem C3_errors_caught_at_session_boundary (our_id gid : String)
    (s : Settings) (st : SessionState) (ev : Event) (env : StepEnv)
    (e : BotError) (effs : List Effect) (post : List (Event × StepEnv))
    (gevs : List (Event × StepEnv)) (rest : List InEvent)
    (h : step our_id s st ev env = .raiseErr e effs) :
    run_events our_id s st ((ev, env) :: post) = (st, effs, .caught e)
    ∧ run our_id s (InEvent.gameStart gid gevs :: rest)
        = (play_game our_id s gevs).2.2 :: run our_id s rest := by
  exact ⟨by simp [run_events, h], by simp [run]⟩

/-- Witness for C3: a malformed move token (`push_uci` raising) kills that
session only; the pending event of the same stream is not processed, and the
outer loop still records an outcome for the game and moves on. -/
theorem C3_errors_caught_at_session_boundary_witness :
    run_events "us" defaultSettings ⟨some Color.black, 0⟩
      [(Event.gameState "started" ["e2e4"], envBad),
       (Event.gameState "started" ["e2e4", "e7e5"], env0)]
      = (⟨some Color.black, 0⟩,
         [Effect.sleep 1, Effect.boardReplay ["e2e4"]],
         RunOutcome.caught BotError.malformedMove)
    ∧ run "us" defaultSettings
        [InEvent.gameStart "g" [(Event.gameState "started" ["e2e4"], envBad)]]
        = (play_game "us" defaultSettings
            [(Event.gameState "started" ["e2e4"], envBad)]).2.2
          :: run "us" defaultSettings [] :=
  C3_errors_caught_at_session_boundary "us" "g" defaultSettings
    ⟨some Color.black, 0⟩ (Event.gameState "started" ["e2e4"]) envBad
    BotError.malformedMove [Effect.sleep 1, Effect.boardReplay ["e2e4"]]
    [(Event.gameState "started" ["e2e4", "e7e5"], env0)]
    [(Event.gameState "started" ["e2e4"], envBad)] [] (by decide)

/-- **C4.** The draw decision: below the `min_moves_for_draw` gate the
result is Decline with no effect at all, regardless of the chance and of the
service; past the gate the accept-draw call is issued iff the drawn value is
below `draw_accept_chance`, so a chance of 1 always accepts (service
permitting) and a chance of 0 always declines. -/
theorem C4_should_accept_draw_policy (s : Settings) (mc : ℕ) (r : ℚ)
    (svc : Bool) :
    (mc < s.min_moves_for_draw → should_accept_draw s mc r svc = (false, []))
    ∧ (s.min_moves_for_draw ≤ mc →
        ((should_accept_draw s mc r svc).1
            = (decide (r < s.draw_accept_chance) && svc)
        ∧ (Effect.acceptDrawCall ∈ (should_accept_draw s mc r svc).2
            ↔ r < s.draw_accept_chance)))
    ∧ (s.min_moves_for_draw ≤ mc → 0 ≤ r → r < 1 →
        (s.draw_accept_chance = 1 →
          (should_accept_draw s mc r true).1 = true)
        ∧ (s.draw_accept_chance = 0 →
          (should_accept_draw s mc r svc).1 = false)) := by
  refine ⟨?_, ?_, ?_⟩
  · intro h
    simp [should_accept_draw, h]
  · intro h
    have h' : ¬ mc < s.min_moves_for_draw := by omega
    by_cases hr : r < s.draw_accept_chance
    · simp [should_accept_draw, h', hr]
    · simp [should_accept_draw, h', hr]
  · intro h h0 h1
    have h' : ¬ mc < s.min_moves_for_draw := by omega
    constructor
    · intro hc
      have hr : r < s.draw_accept_chance := by rw [hc]; exact h1
      simp [should_accept_draw, h', hr]
    · intro hc
      have hr : ¬ r < s.draw_accept_chance := by
        rw [hc]; exact not_lt.mpr h0
      simp [should_accept_draw, h', hr]

/-- Witness for C4 at concrete inputs: below the gate; chance 1; chance 0. -/
theorem C4_should_accept_draw_policy_witness :
    should_accept_draw defaultSettings 5 0 true = (false, [])
    ∧ (should_accept_draw
        { defaultSettings with draw_accept_chance := 1 } 20 (mkRat 1 2) true).1
        = true
    ∧ (should_accept_draw
        { defaultSettings with draw_accept_chance := 0 } 20 (mkRat 1 2) true).1
        = false :=
  ⟨(C4_should_accept_draw_policy defaultSettings 5 0 true).1 (by decide),
   ((C4_should_accept_draw_policy
      { defaultSettings with draw_accept_chance := 1 } 20 (mkRat 1 2) true).2.2
      (by decide) (by decide) (by decide)).1 rfl,
   ((C4_should_accept_draw_policy
      { defaultSettings with draw_accept_chance := 0 } 20 (mkRat 1 2) true).2.2
      (by decide) (by decide) (by decide)).2 rfl⟩

/-- **C5** counterexample: the policy decision functions are not free of
outbound calls — with the gate passed and a drawn value of 0, the effect
trace of each of the three functions contains the corresponding service call
issued from inside the function itself. -/
theorem C5_policy_purity_counterexample :
    Effect.acceptDrawCall ∈ (should_accept_draw defaultSettings 20 0 true).2
    ∧ Effect.acceptTakebackCall
        ∈ (should_accept_takeback defaultSettings 0 true).2
    ∧ Effect.resignCall
        ∈ (consider_resignation defaultSettings 5 0 true).2 := by
  decide

/-- **C5 as amended.** The three policy functions both decide and execute:
when the coin flip succeeds (and the gate or piece-count guard allows it)
each function itself issues the corresponding outbound service call and
reports Accept/Resign exactly when that call succeeds; when the flip fails
or a guard blocks, no service call is issued and the result is
Decline/Continue. -/
theorem C5_policy_functions_decide_and_execute (s : Settings) (mc pc : ℕ)
    (r : ℚ) (svc : Bool) :
    (mc < s.min_moves_for_draw →
      should_accept_draw s mc r svc = (false, []))
    ∧ (s.min_moves_for_draw ≤ mc → r < s.draw_accept_chance →
      should_accept_draw s mc r svc
        = (svc, [Effect.randDraw r, Effect.acceptDrawCall]))
    ∧ (¬ r < s.draw_accept_chance →
        (should_accept_draw s mc r svc).1 = false
        ∧ Effect.acceptDrawCall ∉ (should_accept_draw s mc r svc).2)
    ∧ (r < s.takeback_accept_chance →
        should_accept_takeback s r svc
          = (svc, [Effect.randDraw r, Effect.acceptTakebackCall]))
    ∧ (¬ r < s.takeback_accept_chance →
        should_accept_takeback s r svc = (false, [Effect.randDraw r]))
    ∧ (r < s.resign_chance → pc < 10 →
        consider_resignation s pc r svc
          = (svc, [Effect.randDraw r, Effect.resignCall]))
    ∧ (¬ (r < s.resign_chance ∧ pc < 10) →
        (consider_resignation s pc r svc).1 = false
        ∧ Effect.resignCall ∉ (consider_resignation s pc r svc).2) := by
  refine ⟨?_, ?_, ?_, ?_, ?_, ?_, ?_⟩
  · intro hg
    simp [should_accept_draw, hg]
  · intro h hr
    have h' : ¬ mc < s.min_moves_for_draw := by omega
    simp [should_accept_draw, h', hr]
  · intro hr
    by_cases hg : mc < s.min_moves_for_draw
    · simp [should_accept_draw, hg]
    · simp [should_accept_draw, hg, hr]
  · intro hr
    simp [should_accept_takeback, hr]
  · intro hr
    simp [should_accept_takeback, hr]
  · intro hr hp
    simp [consider_resignation, hr, hp]
  · intro hn
    by_cases hr : r < s.resign_chance
    · have hp : ¬ pc < 10 := fun hp => hn ⟨hr, hp⟩
      simp [consider_resignation, hr, hp]
    · simp [consider_resignation, hr]

/-- Witness for the amended C5 at concrete inputs, the draw gate-block case
(move count below the gate while the flip would succeed) included. -/
theorem C5_policy_functions_decide_and_execute_witness :
    should_accept_draw defaultSettings 5 0 true = (false, [])
    ∧ should_accept_draw defaultSettings 20 0 true
      = (true, [Effect.randDraw 0, Effect.acceptDrawCall])
    ∧ should_accept_takeback defaultSettings 1 true
      = (false, [Effect.randDraw 1]) :=
  ⟨(C5_policy_functions_decide_and_execute defaultSettings 5 5 0 true).1
      (by decide),
   (C5_policy_functions_decide_and_execute defaultSettings 20 5 0 true).2.1
      (by decide) (by decide),
   (C5_policy_functions_decide_and_execute
      defaultSettings 20 5 1 true).2.2.2.2.1 (by decide)⟩

/-- **C6.** A `gameFull` event whose white-side id matches ours assigns the
first-mover color, and the session immediately performs exactly one engine
search followed by exactly one move submission, ahead of whatever is done
for any later event of the stream. -/
theorem C6_white_gameFull_opens (our_id bId : String) (s : Settings)
    (st : SessionState) (env : StepEnv) (m : String)
    (rest : List (Event × StepEnv)) (heng : env.engine = some m)
    (hsub : env.submit_ok = true) :
    step our_id s st (.gameFull our_id bId) env
      = .next { st with our_color := some Color.white, move_count := 1 }
          [Effect.engineSearch, Effect.makeMove m]
    ∧ (run_events our_id s st ((.gameFull our_id bId, env) :: rest)).2.1
        = Effect.engineSearch :: Effect.makeMove m ::
          (run_events our_id s
            { st with our_color := some Color.white, move_count := 1 }
            rest).2.1 := by
  have hstep : step our_id s st (.gameFull our_id bId) env
      = .next { st with our_color := some Color.white, move_count := 1 }
          [Effect.engineSearch, Effect.makeMove m] := by
    simp [step, heng, hsub]
  refine ⟨hstep, ?_⟩
  simp [run_events, hstep]

/-- Witness for C6 at concrete inputs. -/
theorem C6_white_gameFull_opens_witness :
    step "us" defaultSettings initState (Event.gameFull "us" "them") env0
      = StepOut.next ⟨some Color.white, 1⟩
          [Effect.engineSearch, Effect.makeMove "e2e4"] :=
  (C6_white_gameFull_opens "us" "them" defaultSettings initState env0 "e2e4"
    [] rfl rfl).1

/-- An environment whose policy service call fails while everything else
succeeds. -/
def envSvcFail : StepEnv :=
  { r := 0, policy_svc_ok := false, engine := some "g8f6", submit_ok := true
    replay_ok := true, piece_count := 5 }

/-- **C7.** A failing service call while executing an Accept/Resign decision
is caught at the call site: the failed call is still issued but the function
reports Decline/Continue, and the session continues — in particular a failed
resign call during our turn is followed by the normal engine move. -/
theorem C7_service_failure_treated_as_not_acted (our_id : String)
    (s : Settings) (mc pc : ℕ) (r : ℚ) (st : SessionState) (env : StepEnv)
    (moves : List String) (c : Color) (m : String) :
    (s.min_moves_for_draw ≤ mc → r < s.draw_accept_chance →
      should_accept_draw s mc r false
        = (false, [Effect.randDraw r, Effect.acceptDrawCall]))
    ∧ (r < s.takeback_accept_chance →
        should_accept_takeback s r false
          = (false, [Effect.randDraw r, Effect.acceptTakebackCall]))
    ∧ (r < s.resign_chance → pc < 10 →
        consider_resignation s pc r false
          = (false, [Effect.randDraw r, Effect.resignCall]))
    ∧ (st.our_color = some c → moves.isEmpty = false →
        is_our_turn moves c = true → env.replay_ok = true →
        env.policy_svc_ok = false → env.r < s.resign_chance →
        env.piece_count < 10 → env.engine = some m → env.submit_ok = true →
        step our_id s st (.gameState "started" moves) env
          = .next { st with move_count := moves.length }
              [Effect.sleep s.move_delay, Effect.boardReplay moves,
               Effect.randDraw env.r, Effect.resignCall,
               Effect.engineSearch, Effect.makeMove m]) := by
  refine ⟨?_, ?_, ?_, ?_⟩
  · intro h hr
    have h' : ¬ mc < s.min_moves_for_draw := by omega
    simp [should_accept_draw, h', hr]
  · intro hr
    simp [should_accept_takeback, hr]
  · intro hr hp
    simp [consider_resignation, hr, hp]
  · intro hco hne hturn hrep hsvc hr hp heng hsub
    simp only [step]
    rw [hco]
    simp [hne, hturn, hrep, heng, hsub, consider_resignation, hr, hp, hsvc]

/-- Witness for C7 at concrete inputs: the resign call fails, the session
answers with a move anyway; the draw branch likewise reports Decline. -/
theorem C7_service_failure_treated_as_not_acted_witness :
    step "us" defaultSettings ⟨some Color.black, 0⟩
      (Event.gameState "started" ["e2e4"]) envSvcFail
      = StepOut.next ⟨some Color.black, 1⟩
          [Effect.sleep 1, Effect.boardReplay ["e2e4"], Effect.randDraw 0,
           Effect.resignCall, Effect.engineSearch, Effect.makeMove "g8f6"]
    ∧ should_accept_draw defaultSettings 20 0 false
        = (false, [Effect.randDraw 0, Effect.acceptDrawCall]) := by
  have h := C7_service_failure_treated_as_not_acted "us" defaultSettings
    20 5 0 ⟨some Color.black, 0⟩ envSvcFail ["e2e4"] Color.black "g8f6"
  exact ⟨h.2.2.2 rfl rfl (by decide) rfl rfl (by decide) (by decide) rfl rfl,
    h.1 (by decide) (by decide)⟩

/-- **C8.** `consider_resignation` returns Resign only if the coin flip
succeeds and the board's piece count is below 10; in every other case it
returns Continue. -/
theorem C8_resignation_only_if (s : Settings) (pc : ℕ) (r : ℚ)
    (svc : Bool) :
    ((consider_resignation s pc r svc).1 = true →
      r < s.resign_chance ∧ pc < 10)
    ∧ (¬ (r < s.resign_chance ∧ pc < 10) →
        (consider_resignation s pc r svc).1 = false) := by
  constructor
  · intro h
    by_cases hr : r < s.resign_chance
    · by_cases hp : pc < 10
      · exact ⟨hr, hp⟩
      · simp [consider_resignation, hr, hp] at h
    · simp [consider_resignation, hr] at h
  · intro hn
    by_cases hr : r < s.resign_chance
    · have hp : ¬ pc < 10 := fun hp => hn ⟨hr, hp⟩
      simp [consider_resignation, hr, hp]
    · simp [consider_resignation, hr]

/-- Witness for C8 at concrete inputs. -/
theorem C8_resignation_only_if_witness :
    ((0:ℚ) < defaultSettings.resign_chance ∧ 5 < 10)
    ∧ (consider_resignation defaultSettings 20 0 true).1 = false :=
  ⟨(C8_resignation_only_if defaultSettings 5 0 true).1 (by decide),
   (C8_resignation_only_if defaultSettings 20 0 true).2 (by decide)⟩

/-- **C9** counterexample: the color assignment is re-derived by every
full-state event, with no once-only guard — after a second `gameFull` event
whose white-side id is no longer ours, the same session's color assignment
has changed from white to black. -/
theorem C9_color_reassigned_counterexample :
    (run_events "us" defaultSettings initState
      [(Event.gameFull "us" "them", env0)]).1.our_color = some Color.white
    ∧ (run_events "us" defaultSettings initState
        [(Event.gameFull "us" "them", env0),
         (Event.gameFull "them" "us", env0)]).1.our_color
        = some Color.black := by
  decide

/-- **C9 as amended.** The color assignment is recomputed by every
full-state event (nothing enforces "exactly once"); it is fixed for the
session only in the sense that no other event kind changes it: over any
stretch of the stream containing no full-state event, the color assignment
is preserved. -/
theorem C9_color_changed_only_by_gameFull (our_id : String) (s : Settings)
    (evs : List (Event × StepEnv)) :
    ∀ st : SessionState, (∀ p ∈ evs, isGameFull p.1 = false) →
      (run_events our_id s st evs).1.our_color = st.our_color := by
  induction evs with
  | nil =>
    intro st h
    rfl
  | cons p rest ih =>
    intro st h
    obtain ⟨ev, env⟩ := p
    have h1 : isGameFull ev = false := h (ev, env) (List.mem_cons_self _ _)
    have h2 : ∀ q ∈ rest, isGameFull q.1 = false :=
      fun q hq => h q (List.mem_cons_of_mem _ hq)
    have hc := step_color our_id s st ev env h1
    simp only [run_events]
    cases hstep : step our_id s st ev env with
    | next st1 effs =>
      rw [hstep] at hc
      simp only [StepOut.colorAfter] at hc
      simp only [hstep]
      exact (ih st1 h2).trans hc
    | halt st1 effs =>
      rw [hstep] at hc
      simp only [StepOut.colorAfter] at hc
      simp only [hstep]
      exact hc
    | raiseErr e effs =>
      simp only [hstep]

/-- Witness for the amended C9: a stretch of incremental-state, chat and
takeback events leaves an assigned color untouched. -/
theorem C9_color_changed_only_by_gameFull_witness :
    (run_events "us" defaultSettings ⟨some Color.white, 0⟩
      [(Event.gameState "started" [], env0),
       (Event.chatLine "opp" "hello", env0),
       (Event.takebackOffered, env0)]).1.our_color = some Color.white :=
  C9_color_changed_only_by_gameFull "us" defaultSettings
    [(Event.gameState "started" [], env0),
     (Event.chatLine "opp" "hello", env0),
     (Event.takebackOffered, env0)]
    ⟨some Color.white, 0⟩ (by decide)

/-- **C10.** An incremental-state event with an empty move-token sequence,
or one arriving before any color assignment, produces no effect at all — no
pre-move delay, no board reconstruction, no random draw or resignation
check, no move submission — even when `is_our_turn` would hold for the
empty sequence; with status `"started"` the step merely continues (only the
bookkeeping move count is refreshed when tokens are present). -/
theorem C10_no_action_on_empty_or_colorless (our_id : String) (s : Settings)
    (st : SessionState) (env : StepEnv) (status : String)
    (moves : List String) (h : moves = [] ∨ st.our_color = none) :
    (step our_id s st (.gameState status moves) env).effects = []
    ∧ (status = "started" →
        step our_id s st (.gameState status moves) env
          = .next { st with move_count :=
              if moves.isEmpty then st.move_count else moves.length } []) := by
  obtain ⟨oc, mcnt⟩ := st
  rcases h with h | h
  · subst h
    constructor
    · simp only [step]
      split
      · rfl
      · cases oc with
        | none => simp [StepOut.effects]
        | some c => simp [StepOut.effects]
    · intro hs
      subst hs
      cases oc with
      | none => simp [step]
      | some c => simp [step]
  · have h' : oc = none := h
    subst h'
    constructor
    · simp only [step]
      split
      · rfl
      · cases hm : moves.isEmpty <;> simp [StepOut.effects, hm]
    · intro hs
      subst hs
      cases hm : moves.isEmpty with
      | true =>
        have hnil : moves = [] := by simpa using hm
        subst hnil
        simp [step]
      | false => simp [step, hm]

/-- Witness for C10: an empty-move event while we are white (so
`is_our_turn` holds) does nothing; a non-empty event with no color assigned
only refreshes the move count. -/
theorem C10_no_action_on_empty_or_colorless_witness :
    (step "us" defaultSettings ⟨some Color.white, 3⟩
      (Event.gameState "started" []) env0).effects = []
    ∧ step "us" defaultSettings ⟨none, 0⟩
        (Event.gameState "started" ["e2e4"]) env0
        = StepOut.next ⟨none, 1⟩ [] := by
  refine ⟨(C10_no_action_on_empty_or_colorless "us" defaultSettings
      ⟨some Color.white, 3⟩ env0 "started" [] (Or.inl rfl)).1, ?_⟩
  have h := (C10_no_action_on_empty_or_colorless "us" defaultSettings
      ⟨none, 0⟩ env0 "started" ["e2e4"] (Or.inr rfl)).2 rfl
  simpa using h
